import Mathlib

/-!
Shallow embedding of `pycatia/context.py` (the `CATIADocHandler` context
manager) and of the unit-conversion table exercised by
`tests/test_unit_convertions.py`.

Calls into the external automation layer (application acquisition,
document-collection acquisition, `open`, `add`, active-document retrieval,
`close`) and the warning diagnostic are recorded as events in a trace.
Opaque external handles are modelled as natural numbers drawn from a
counter threaded through the functions, so that distinct acquisitions
yield distinct handles.  Python string truthiness (`if self.file_name:`)
is modelled by `strTruthy`: `None` and the empty string are falsy.
-/

/-- Calls into the external automation layer, plus the warning diagnostic. -/
inductive Event where
  | acquireApplication
  | acquireDocuments
  | openDoc (path : String)
  | addDoc (kind : String)
  | getDocument
  | closeDoc
  | warn (msg : String)
  deriving DecidableEq, Repr

/-- Python truthiness of an optional string attribute: `None` and the empty
string are falsy, every other string is truthy. -/
def strTruthy : Option String → Bool
  | none => false
  | some s => s != ""

/-- The state of a `CATIADocHandler` instance: the `catia` and `documents`
handles, the two constructor arguments, and the `document` attribute (which
Python only assigns inside `__enter__`; it is modelled as `none` before
that). -/
structure Handler where
  catia : Nat
  documents : Nat
  file_name : Option String
  new_document : Option String
  document : Option Nat
  deriving DecidableEq, Repr

/-- The error message of the `CATIAApplicationException` raised by
`__init__` on a missing file. -/
def errMsg (p : String) : String := "Could not find file: " ++ p

/-- The warning message emitted by `__exit__` when there is no document. -/
def warnMsg : String := "The document handler could not detect a document to close."

/-- The handler state as `__init__` leaves it when the counter stood at `c`
on entry: `catia` and `documents` are the two freshly acquired handles. -/
def mkHandler (fn nd : Option String) (c : Nat) : Handler :=
  { catia := c, documents := c + 1, file_name := fn, new_document := nd,
    document := none }

/-- Result of `__init__`: events performed, the constructed object or the
raised exception, and the advanced handle counter. -/
structure InitResult where
  trace : List Event
  result : Except String Handler
  counter : Nat
  deriving Repr

/-- `CATIADocHandler.__init__`: acquires the application handle and the
document-collection handle, stores the two arguments, and only then raises
`CATIAApplicationException` when a truthy `file_name` does not name an
existing file (`os.path.isfile` is the parameter `fs`).  The short-circuit
of `if self.file_name and not os.path.isfile(self.file_name)` means the
existence check is skipped for `None` and for the empty string. -/
def init (fs : String → Bool) (fn nd : Option String) (c : Nat) : InitResult :=
  { trace := [Event.acquireApplication, Event.acquireDocuments]
    result :=
      if strTruthy fn && !fs (fn.getD ("")) then
        Except.error (errMsg (fn.getD ("")))
      else
        Except.ok (mkHandler fn nd c)
    counter := c + 2 }

/-- Result of `__enter__`: the returned object (`self`, with its updated
attributes), the events performed, and the advanced handle counter. -/
structure EnterResult where
  self : Handler
  trace : List Event
  counter : Nat
  deriving Repr

/-- `CATIADocHandler.__enter__`: re-acquires the application and the
document-collection handles (overwriting the pair stored by `__init__`),
sets `document` to `None`, then opens `file_name` when truthy, else adds
`new_document` when truthy, in either case retrieving the now-active
document from the application; finally returns `self`. -/
def enter (h : Handler) (c : Nat) : EnterResult :=
  if strTruthy h.file_name then
    { self := { catia := c, documents := c + 1, file_name := h.file_name,
                new_document := h.new_document, document := some (c + 2) }
      trace := [Event.acquireApplication, Event.acquireDocuments,
                Event.openDoc (h.file_name.getD ("")), Event.getDocument]
      counter := c + 3 }
  else if strTruthy h.new_document then
    { self := { catia := c, documents := c + 1, file_name := h.file_name,
                new_document := h.new_document, document := some (c + 2) }
      trace := [Event.acquireApplication, Event.acquireDocuments,
                Event.addDoc (h.new_document.getD ("")), Event.getDocument]
      counter := c + 3 }
  else
    { self := { catia := c, documents := c + 1, file_name := h.file_name,
                new_document := h.new_document, document := none }
      trace := [Event.acquireApplication, Event.acquireDocuments]
      counter := c + 2 }

/-- Result of `__exit__`: the events performed and the value returned to
the `with` machinery (`None`, modelled as `none`, since the Python body has
no `return`). -/
structure ExitResult where
  trace : List Event
  suppress : Option Bool
  deriving Repr

/-- `CATIADocHandler.__exit__`: closes the document when the `document`
attribute is truthy, otherwise emits a warning; implicitly returns `None`. -/
def exitHandler (h : Handler) : ExitResult :=
  if h.document.isSome then
    { trace := [Event.closeDoc], suppress := none }
  else
    { trace := [Event.warn warnMsg], suppress := none }

/-- Outcome of the caller's scoped block: a normal value or a raised
exception. -/
inductive BodyOutcome (α : Type) where
  | ret (a : α)
  | exc (e : String)

/-- Python truthiness of the value `__exit__` returned (`None` is falsy). -/
def suppresses : Option Bool → Bool
  | none => false
  | some b => b

/-- Result of the whole `with` statement: the full event trace and either
the body's value, `none` when a body exception was suppressed, or the
propagated exception. -/
structure RunResult (α : Type) where
  trace : List Event
  outcome : Except String (Option α)

/-- The `with CATIADocHandler(...) as handler:` statement: construction,
then `__enter__`, then the body; `__exit__` runs on the normal path and on
the exceptional path, and a body exception is re-raised unless `__exit__`
returned a truthy value. -/
def runWith (α : Type) (fs : String → Bool) (fn nd : Option String) (c : Nat)
    (body : Handler → BodyOutcome α) : RunResult α :=
  match (init fs fn nd c).result with
  | Except.error e =>
      { trace := (init fs fn nd c).trace, outcome := Except.error e }
  | Except.ok h =>
      match body (enter h (init fs fn nd c).counter).self with
      | BodyOutcome.ret a =>
          { trace := (init fs fn nd c).trace
              ++ (enter h (init fs fn nd c).counter).trace
              ++ (exitHandler (enter h (init fs fn nd c).counter).self).trace
            outcome := Except.ok (some a) }
      | BodyOutcome.exc e =>
          { trace := (init fs fn nd c).trace
              ++ (enter h (init fs fn nd c).counter).trace
              ++ (exitHandler (enter h (init fs fn nd c).counter).self).trace
            outcome :=
              if suppresses
                  (exitHandler (enter h (init fs fn nd c).counter).self).suppress
              then Except.ok none
              else Except.error e }

/-- Modelled from the spec: the repository module `pycatia/csv_tools.py`
(the `unit_conversion` table) is not among the sources, only its test is.
The table maps a unit name to the multiplier expressing one of that unit
in millimetres; the values follow the spec and agree with the assertions
of `tests/test_unit_convertions.py` (25.4 is the rational 127/5). -/
def unit_conversion : String → Option ℚ
  | "mm" => some 1
  | "cm" => some 10
  | "m" => some 1000
  | "km" => some 1000000
  | "in" => some (127 / 5)
  | "mile" => some 1609344
  | _ => none

/-- Modelled from the spec: the repository conversion function
(`convert_units` of `pycatia/csv_tools.py`, absent from the sources)
multiplies a scalar by the multiplier of the given unit, per the spec
sentence `convert(v, u)` equals `v * multiplier[u]`. -/
def convert_units (v : ℚ) (u : String) : Option ℚ :=
  (unit_conversion u).map (fun m => v * m)

/-- Helper: `None` is falsy. -/
@[simp]
theorem strTruthy_none : strTruthy none = false := rfl

/-- Helper: a present string is truthy exactly when it is non-empty. -/
@[simp]
theorem strTruthy_some (s : String) : strTruthy (some s) = (s != "") := rfl

/-- Helper: `__exit__` always returns `None`, hence never signals
suppression to the `with` machinery. -/
theorem exitHandler_suppress (h : Handler) : (exitHandler h).suppress = none := by
  unfold exitHandler
  by_cases hd : h.document.isSome <;> simp [hd]

/-- Helper: when `__init__` returns normally, the object it constructed is
exactly `mkHandler fn nd c`. -/
theorem init_ok_eq (fs : String → Bool) (fn nd : Option String) (c : Nat)
    (h : Handler) (hok : (init fs fn nd c).result = Except.ok h) :
    h = mkHandler fn nd c := by
  unfold init at hok
  split at hok
  · simp at hok
  · simp at hok
    exact hok.symm

/-- C1: on scope exit, a non-null document handle receives exactly one
`close` call and no warning; a null handle receives no `close` call and a
single non-fatal warning instead; in both cases `__exit__` returns `None`,
so execution continues in the caller. -/
theorem c1_close_or_warn (h : Handler) :
    (exitHandler h).trace
        = (if h.document.isSome then [Event.closeDoc] else [Event.warn warnMsg])
      ∧ (exitHandler h).trace.count Event.closeDoc
        = (if h.document.isSome then 1 else 0)
      ∧ (exitHandler h).suppress = none := by
  unfold exitHandler
  by_cases hd : h.document.isSome <;> simp [hd, List.count_cons]

/-- C2 counterexample: constructing with a non-existent source path does
raise the exception, but the application and document-collection
acquisitions have already been performed at that point, contradicting the
claim that the failure precedes any call into the automation layer. -/
theorem c2_counterexample :
    (init (fun _ => false) (some ("missing.CATPart")) none 0).result
        = Except.error (errMsg ("missing.CATPart"))
      ∧ (init (fun _ => false) (some ("missing.CATPart")) none 0).trace
        = [Event.acquireApplication, Event.acquireDocuments] :=
  ⟨rfl, rfl⟩

/-- C2 amended: construction with a truthy source path that does not exist
fails with the `CATIAApplicationException` error, after the application and
document-collection acquisitions have been performed and before any `open`
or `add` call is attempted. -/
theorem c2_fail_after_acquisition (fs : String → Bool) (p : String)
    (nd : Option String) (c : Nat) (hp : p ≠ "") (hfs : fs p = false) :
    (init fs (some p) nd c).result = Except.error (errMsg p)
      ∧ (init fs (some p) nd c).trace
        = [Event.acquireApplication, Event.acquireDocuments] := by
  unfold init
  simp [strTruthy, hp, hfs]

/-- Witness for the amended C2 at a concrete input. -/
theorem c2_fail_after_acquisition_witness :
    ("missing.CATPart" : String) ≠ ""
      ∧ ((fun _ => false) : String → Bool) "missing.CATPart" = false
      ∧ ((init (fun _ => false) (some ("missing.CATPart")) none 0).result
            = Except.error (errMsg ("missing.CATPart"))
          ∧ (init (fun _ => false) (some ("missing.CATPart")) none 0).trace
            = [Event.acquireApplication, Event.acquireDocuments]) :=
  ⟨by decide, rfl,
    c2_fail_after_acquisition (fun _ => false) "missing.CATPart" none 0
      (by decide) rfl⟩

/-- C3: when the body of the scoped block raises, `__exit__` still runs its
close-or-warn behaviour (its trace is appended after the construction and
entry traces) and the exception is re-raised to the caller unchanged; the
exit handler never suppresses it. -/
theorem c3_exception_propagates (α : Type) (fs : String → Bool)
    (fn nd : Option String) (c : Nat) (e : String) (h : Handler)
    (hok : (init fs fn nd c).result = Except.ok h) :
    (runWith α fs fn nd c (fun _ => BodyOutcome.exc e)).outcome
        = Except.error e
      ∧ (runWith α fs fn nd c (fun _ => BodyOutcome.exc e)).trace
        = (init fs fn nd c).trace
            ++ (enter h (init fs fn nd c).counter).trace
            ++ (exitHandler (enter h (init fs fn nd c).counter).self).trace := by
  unfold runWith
  rw [hok]
  simp [suppresses, exitHandler_suppress]

/-- Witness for C3 at a concrete input. -/
theorem c3_exception_propagates_witness :
    (init (fun _ => true) none none 0).result = Except.ok (mkHandler none none 0)
      ∧ ((runWith Unit (fun _ => true) none none 0
              (fun _ => BodyOutcome.exc ("boom"))).outcome
            = Except.error ("boom")
          ∧ (runWith Unit (fun _ => true) none none 0
              (fun _ => BodyOutcome.exc ("boom"))).trace
            = (init (fun _ => true) none none 0).trace
                ++ (enter (mkHandler none none 0)
                      (init (fun _ => true) none none 0).counter).trace
                ++ (exitHandler (enter (mkHandler none none 0)
                      (init (fun _ => true) none none 0).counter).self).trace) :=
  ⟨rfl, c3_exception_propagates Unit (fun _ => true) none none 0 "boom"
    (mkHandler none none 0) rfl⟩

/-- C4: constructing with an existing truthy source path succeeds, and
entering the scope re-acquires the handles, calls `open` on the document
collection with exactly that path, then retrieves the active document,
leaving a non-null document handle. -/
theorem c4_open_existing_path (fs : String → Bool) (p : String)
    (nd : Option String) (c : Nat) (hp : p ≠ "") (hfs : fs p = true) :
    (init fs (some p) nd c).result = Except.ok (mkHandler (some p) nd c)
      ∧ (enter (mkHandler (some p) nd c) (init fs (some p) nd c).counter).trace
        = [Event.acquireApplication, Event.acquireDocuments,
           Event.openDoc p, Event.getDocument]
      ∧ (enter (mkHandler (some p) nd c)
          (init fs (some p) nd c).counter).self.document.isSome = true := by
  unfold init enter mkHandler
  simp [strTruthy, hp, hfs]

/-- Witness for C4 at a concrete input. -/
theorem c4_open_existing_path_witness :
    ("part.CATPart" : String) ≠ ""
      ∧ ((fun _ => true) : String → Bool) "part.CATPart" = true
      ∧ ((init (fun _ => true) (some ("part.CATPart")) none 0).result
            = Except.ok (mkHandler (some ("part.CATPart")) none 0)
          ∧ (enter (mkHandler (some ("part.CATPart")) none 0)
                (init (fun _ => true) (some ("part.CATPart")) none 0).counter).trace
            = [Event.acquireApplication, Event.acquireDocuments,
               Event.openDoc ("part.CATPart"), Event.getDocument]
          ∧ (enter (mkHandler (some ("part.CATPart")) none 0)
                (init (fun _ => true) (some ("part.CATPart"))
                  none 0).counter).self.document.isSome = true) :=
  ⟨by decide, rfl,
    c4_open_existing_path (fun _ => true) "part.CATPart" none 0 (by decide) rfl⟩

/-- C5: constructing with no source path and a truthy document kind
succeeds, and entering the scope calls `add` on the document collection
with exactly that kind, then retrieves the active document, leaving a
non-null document handle. -/
theorem c5_add_new_document (fs : String → Bool) (k : String) (c : Nat)
    (hk : k ≠ "") :
    (init fs none (some k) c).result = Except.ok (mkHandler none (some k) c)
      ∧ (enter (mkHandler none (some k) c) (init fs none (some k) c).counter).trace
        = [Event.acquireApplication, Event.acquireDocuments,
           Event.addDoc k, Event.getDocument]
      ∧ (enter (mkHandler none (some k) c)
          (init fs none (some k) c).counter).self.document.isSome = true := by
  unfold init enter mkHandler
  simp [strTruthy, hk]

/-- Witness for C5 at a concrete input. -/
theorem c5_add_new_document_witness :
    ("Part" : String) ≠ ""
      ∧ ((init (fun _ => true) none (some ("Part")) 0).result
            = Except.ok (mkHandler none (some ("Part")) 0)
          ∧ (enter (mkHandler none (some ("Part")) 0)
                (init (fun _ => true) none (some ("Part")) 0).counter).trace
            = [Event.acquireApplication, Event.acquireDocuments,
               Event.addDoc ("Part"), Event.getDocument]
          ∧ (enter (mkHandler none (some ("Part")) 0)
                (init (fun _ => true) none
                  (some ("Part")) 0).counter).self.document.isSome = true) :=
  ⟨by decide, c5_add_new_document (fun _ => true) "Part" 0 (by decide)⟩

/-- C6: constructing with neither a source path nor a document kind leaves
the document handle null on entry, and in every case the value returned by
`__enter__` is the handler object itself, exposing the freshly acquired
application handle, the freshly acquired document-collection handle, and
the document handle. -/
theorem c6_neither_null_and_exposed (fs : String → Bool) (c : Nat)
    (h : Handler) (d : Nat) :
    (init fs none none c).result = Except.ok (mkHandler none none c)
      ∧ (enter (mkHandler none none c)
          (init fs none none c).counter).self.document = none
      ∧ (enter h d).self.catia = d
      ∧ (enter h d).self.documents = d + 1
      ∧ ((enter h d).self.document = none
          ∨ (enter h d).self.document = some (d + 2)) := by
  refine ⟨rfl, rfl, ?_, ?_, ?_⟩ <;>
    (unfold enter
     by_cases h1 : strTruthy h.file_name <;>
       by_cases h2 : strTruthy h.new_document <;> simp [h1, h2])

/-- C7: when construction succeeded, scope entry performs a second
acquisition of the application and document-collection handles as its first
two external calls, before any `open` or `add` call, and the handles stored
on the returned object differ from the pair stored at construction (the
first pair is discarded). -/
theorem c7_reacquires_and_discards (fs : String → Bool) (fn nd : Option String)
    (c : Nat) (h : Handler) (hok : (init fs fn nd c).result = Except.ok h) :
    (enter h (init fs fn nd c).counter).trace.take 2
        = [Event.acquireApplication, Event.acquireDocuments]
      ∧ (∀ p, Event.openDoc p ∉ (enter h (init fs fn nd c).counter).trace.take 2)
      ∧ (∀ k, Event.addDoc k ∉ (enter h (init fs fn nd c).counter).trace.take 2)
      ∧ (enter h (init fs fn nd c).counter).self.catia ≠ h.catia
      ∧ (enter h (init fs fn nd c).counter).self.documents ≠ h.documents := by
  have hmk : h = mkHandler fn nd c := init_ok_eq fs fn nd c h hok
  subst hmk
  unfold init enter mkHandler
  by_cases h1 : strTruthy fn <;> by_cases h2 : strTruthy nd <;>
    simp [h1, h2]

/-- Witness for C7 at a concrete input. -/
theorem c7_reacquires_and_discards_witness :
    (init (fun _ => true) none none 0).result = Except.ok (mkHandler none none 0)
      ∧ ((enter (mkHandler none none 0)
            (init (fun _ => true) none none 0).counter).trace.take 2
          = [Event.acquireApplication, Event.acquireDocuments]
        ∧ (∀ p, Event.openDoc p
            ∉ (enter (mkHandler none none 0)
                (init (fun _ => true) none none 0).counter).trace.take 2)
        ∧ (∀ k, Event.addDoc k
            ∉ (enter (mkHandler none none 0)
                (init (fun _ => true) none none 0).counter).trace.take 2)
        ∧ (enter (mkHandler none none 0)
            (init (fun _ => true) none none 0).counter).self.catia
          ≠ (mkHandler none none 0).catia
        ∧ (enter (mkHandler none none 0)
            (init (fun _ => true) none none 0).counter).self.documents
          ≠ (mkHandler none none 0).documents) :=
  ⟨rfl, c7_reacquires_and_discards (fun _ => true) none none 0
    (mkHandler none none 0) rfl⟩

/-- C8: for every unit name in the table and every positive scalar `v`,
conversion multiplies `v` by the unit's multiplier (1, 10, 1000, 1000000,
25.4 = 127/5 and 1609344 millimetres respectively), and at input 5 the
results are 5, 50, 5000, 5000000, 127 and 8046720. -/
theorem c8_unit_conversion_table (v : ℚ) (hv : 0 < v) :
    convert_units v ("mm") = some (v * 1)
      ∧ convert_units v ("cm") = some (v * 10)
      ∧ convert_units v ("m") = some (v * 1000)
      ∧ convert_units v ("km") = some (v * 1000000)
      ∧ convert_units v ("in") = some (v * (127 / 5))
      ∧ convert_units v ("mile") = some (v * 1609344)
      ∧ convert_units 5 ("mm") = some 5
      ∧ convert_units 5 ("cm") = some 50
      ∧ convert_units 5 ("m") = some 5000
      ∧ convert_units 5 ("km") = some 5000000
      ∧ convert_units 5 ("in") = some 127
      ∧ convert_units 5 ("mile") = some 8046720 := by
  refine ⟨?_, ?_, ?_, ?_, ?_, ?_, ?_, ?_, ?_, ?_, ?_, ?_⟩ <;>
    simp [convert_units, unit_conversion] <;> norm_num

/-- Witness for C8 at a concrete positive scalar. -/
theorem c8_unit_conversion_table_witness :
    (0 : ℚ) < 5
      ∧ (convert_units 5 ("mm") = some (5 * 1)
          ∧ convert_units 5 ("cm") = some (5 * 10)
          ∧ convert_units 5 ("m") = some (5 * 1000)
          ∧ convert_units 5 ("km") = some (5 * 1000000)
          ∧ convert_units 5 ("in") = some (5 * (127 / 5))
          ∧ convert_units 5 ("mile") = some (5 * 1609344)
          ∧ convert_units 5 ("mm") = some 5
          ∧ convert_units 5 ("cm") = some 50
          ∧ convert_units 5 ("m") = some 5000
          ∧ convert_units 5 ("km") = some 5000000
          ∧ convert_units 5 ("in") = some 127
          ∧ convert_units 5 ("mile") = some 8046720) :=
  ⟨by norm_num, c8_unit_conversion_table 5 (by norm_num)⟩

/-- C9: when both a truthy existing source path and a document kind are
supplied, the source path takes precedence: scope entry opens the path
exactly once and never calls `add`, so exactly one acquisition route is
taken. -/
theorem c9_source_path_precedence (fs : String → Bool) (p k : String)
    (c : Nat) (hp : p ≠ "") (hfs : fs p = true) :
    (init fs (some p) (some k) c).result
        = Except.ok (mkHandler (some p) (some k) c)
      ∧ (enter (mkHandler (some p) (some k) c)
          (init fs (some p) (some k) c).counter).trace
        = [Event.acquireApplication, Event.acquireDocuments,
           Event.openDoc p, Event.getDocument]
      ∧ (enter (mkHandler (some p) (some k) c)
          (init fs (some p) (some k) c).counter).trace.count (Event.openDoc p) = 1
      ∧ (∀ k2, Event.addDoc k2
          ∉ (enter (mkHandler (some p) (some k) c)
              (init fs (some p) (some k) c).counter).trace) := by
  unfold init enter mkHandler
  simp [strTruthy, hp, hfs, List.count_cons]

/-- Witness for C9 at a concrete input. -/
theorem c9_source_path_precedence_witness :
    ("part.CATPart" : String) ≠ ""
      ∧ ((fun _ => true) : String → Bool) "part.CATPart" = true
      ∧ ((init (fun _ => true) (some ("part.CATPart")) (some ("Part")) 0).result
            = Except.ok (mkHandler (some ("part.CATPart")) (some ("Part")) 0)
          ∧ (enter (mkHandler (some ("part.CATPart")) (some ("Part")) 0)
              (init (fun _ => true) (some ("part.CATPart"))
                (some ("Part")) 0).counter).trace
            = [Event.acquireApplication, Event.acquireDocuments,
               Event.openDoc ("part.CATPart"), Event.getDocument]
          ∧ (enter (mkHandler (some ("part.CATPart")) (some ("Part")) 0)
              (init (fun _ => true) (some ("part.CATPart"))
                (some ("Part")) 0).counter).trace.count
              (Event.openDoc ("part.CATPart")) = 1
          ∧ (∀ k2, Event.addDoc k2
              ∉ (enter (mkHandler (some ("part.CATPart")) (some ("Part")) 0)
                  (init (fun _ => true) (some ("part.CATPart"))
                    (some ("Part")) 0).counter).trace)) :=
  ⟨by decide, rfl,
    c9_source_path_precedence (fun _ => true) "part.CATPart" "Part" 0
      (by decide) rfl⟩

/-- C10: with the empty string as source path, construction skips the
file-existence check and succeeds for every filesystem; scope entry never
calls `open`; the document handle stays null and exit warns, unless a
truthy document kind was supplied, in which case `add` runs, the handle is
non-null and exit closes it. -/
theorem c10_empty_source_path (fs : String → Bool) (nd : Option String)
    (c : Nat) :
    (init fs (some ("")) nd c).result = Except.ok (mkHandler (some ("")) nd c)
      ∧ (∀ p, Event.openDoc p
          ∉ (enter (mkHandler (some ("")) nd c)
              (init fs (some ("")) nd c).counter).trace)
      ∧ (enter (mkHandler (some ("")) nd c)
          (init fs (some ("")) nd c).counter).self.document
        = (if strTruthy nd then some (c + 4) else none)
      ∧ (enter (mkHandler (some ("")) nd c)
          (init fs (some ("")) nd c).counter).trace
        = (if strTruthy nd then
             [Event.acquireApplication, Event.acquireDocuments,
              Event.addDoc (nd.getD ("")), Event.getDocument]
           else [Event.acquireApplication, Event.acquireDocuments])
      ∧ (exitHandler (enter (mkHandler (some ("")) nd c)
          (init fs (some ("")) nd c).counter).self).trace
        = (if strTruthy nd then [Event.closeDoc] else [Event.warn warnMsg]) := by
  unfold init enter mkHandler exitHandler
  by_cases h2 : strTruthy nd <;> simp [h2]


